import Mathlib

/-!
Shallow embedding of the TrakSure TCP server core (protocol codec,
session/registry handling, command dispatch and command-status store
writes), translated from `src/protocol-parser.js`, `src/tcp-server.js`
and the `DeviceManager`/`DatabaseService` module, together with proofs
settling the specification claims.

Byte buffers are modelled as `List Nat` (each element a byte value),
ASCII strings as `List Char`.  JavaScript `NaN` results of
`parseFloat`/`parseInt` are modelled as `Option` `none`.  `Date` values
are modelled symbolically by `JsDateR`.
-/

set_option maxRecDepth 4000

/-- ASCII view of a byte buffer: Node's `buffer.toString("ascii")` masks each
byte to 7 bits. -/
def asciiOf (bs : List Nat) : List Char :=
  bs.map (fun b => Char.ofNat (b % 128))

/-- Byte list of an ASCII string literal, as `Buffer.from(s, "ascii")`. -/
def asciiBytes (s : String) : List Nat :=
  s.toList.map (fun c => c.toNat % 256)

/-- Char list of a string literal. -/
def strL (s : String) : List Char := s.toList

/-- JavaScript `String.prototype.startsWith`. -/
def startsWithS : List Char → List Char → Bool
  | _, [] => true
  | [], _ :: _ => false
  | c :: cs, p :: ps => c = p && startsWithS cs ps

/-- JavaScript `String.prototype.split(sep)` for a one-character separator. -/
def splitOnChar (sep : Char) : List Char → List (List Char)
  | [] => [[]]
  | c :: rest =>
    match splitOnChar sep rest with
    | [] => [[]]
    | g :: gs => if c = sep then [] :: g :: gs else (c :: g) :: gs

/-- Whitespace characters recognised by JavaScript `trim` / numeric parsing
(the subset relevant to the wire formats in this repository). -/
def isJsSpace (c : Char) : Bool :=
  c = ' ' || c = '\t' || c = '\n' || c = '\r' || c.toNat = 11 || c.toNat = 12

/-- JavaScript `String.prototype.trim`. -/
def trimChars (s : List Char) : List Char :=
  ((s.dropWhile isJsSpace).reverse.dropWhile isJsSpace).reverse

/-- JavaScript `String.prototype.substring(a, b)` for `a ≤ b`. -/
def subChars (s : List Char) (a b : Nat) : List Char :=
  (s.drop a).take (b - a)

/-- Decimal digit test. -/
def isDigitCh (c : Char) : Bool := 48 ≤ c.toNat && c.toNat ≤ 57

/-- Split a char list into its longest digit prefix and the rest. -/
def takeDigits : List Char → List Char × List Char
  | [] => ([], [])
  | c :: r =>
    if isDigitCh c then ((takeDigits r).1.cons c, (takeDigits r).2)
    else ([], c :: r)

/-- Numeric value of a digit list. -/
def digitsVal (ds : List Char) : Nat :=
  ds.foldl (fun a c => 10 * a + (c.toNat - 48)) 0

/-- Leading sign of a JavaScript numeric literal: strip one `-` or `+`. -/
def jsSign (s0 : List Char) : Bool × List Char :=
  if s0.head? = some '-' then (true, s0.tail)
  else if s0.head? = some '+' then (false, s0.tail)
  else (false, s0)

/-- Model of JavaScript `parseFloat` restricted to inputs of shape
`[space*][+|-]digits[.digits]…` (no exponent appears on this wire format);
`none` models `NaN`. -/
def jsParseFloat (s : List Char) : Option ℚ :=
  let s0 := s.dropWhile isJsSpace
  let signAndRest := jsSign s0
  let ip := takeDigits signAndRest.2
  let fp : List Char :=
    match ip.2 with
    | '.' :: r => (takeDigits r).1
    | _ => []
  if ip.1 = [] ∧ fp = [] then none
  else
    let mag : ℚ := (digitsVal ip.1 : ℚ) + (digitsVal fp : ℚ) / ((10 : ℚ) ^ fp.length)
    some (if signAndRest.1 then -mag else mag)

/-- Model of JavaScript `parseInt` (base 10); `none` models `NaN`. -/
def jsParseInt (s : List Char) : Option Int :=
  let s0 := s.dropWhile isJsSpace
  let signAndRest := jsSign s0
  let ip := (takeDigits signAndRest.2).1
  if ip = [] then none
  else some (if signAndRest.1 then -(digitsVal ip : Int) else (digitsVal ip : Int))

/-- Truncation toward zero, as JavaScript's remainder operator uses. -/
def ratTrunc (q : ℚ) : Int := if 0 ≤ q then ⌊q⌋ else -⌊-q⌋

/-- JavaScript `%` on numbers: remainder with the sign of the dividend. -/
def jsRem (a n : ℚ) : ℚ := a - n * (ratTrunc (a / n) : ℚ)

/-- Lowercase hexadecimal digit. -/
def hexDigitChar (n : Nat) : Char :=
  Char.ofNat (if n < 10 then 48 + n else 87 + n)

/-- Model of JavaScript `b.toString(16)` for byte values `b < 256`:
lowercase, no leading zeros. -/
def byteHexChars (b : Nat) : List Char :=
  if b < 16 then [hexDigitChar b]
  else [hexDigitChar (b / 16), hexDigitChar (b % 16)]

/-- JavaScript `String.prototype.padStart(2, "0")`. -/
def padStart2 (s : List Char) : List Char :=
  if s.length < 2 then List.replicate (2 - s.length) '0' ++ s else s

/-- Node `buffer.toString("hex")`: two lowercase digits per byte. -/
def hexOfBytes (bs : List Nat) : List Char :=
  bs.flatMap (fun b => padStart2 (byteHexChars (b % 256)))

/-- `buffer.toString("ascii").replace(/[^\x20-\x7E]/g, ".")` from the
generic sub-codec. -/
def asciiPrintable (bs : List Nat) : List Char :=
  bs.map (fun b =>
    let c := b % 128
    if 32 ≤ c ∧ c ≤ 126 then Char.ofNat c else '.')

/-- Big-endian 16-bit read `data.readUInt16BE(i)`. -/
def readU16 (d : List Nat) (i : Nat) : Nat :=
  d.getD i 0 * 256 + d.getD (i + 1) 0

/-- Big-endian 32-bit read `data.readUInt32BE(i)`. -/
def readU32 (d : List Nat) (i : Nat) : Nat :=
  d.getD i 0 * 16777216 + d.getD (i + 1) 0 * 65536 +
    d.getD (i + 2) 0 * 256 + d.getD (i + 3) 0

/-- Symbolic JavaScript `Date` value: either `new Date(y, mo, d, h, mi, s)`
with possibly-`NaN` components, or `new Date()` (the receipt time). -/
inductive JsDateR where
  | ctor (y mo d h mi s : Option Int)
  | now
deriving DecidableEq

/-- Typed event decoded from a frame (the `data` object of a parse result),
one constructor per object shape produced in `src/protocol-parser.js`. -/
inductive PData where
  | login (imei : List Char) (typeId : Nat)
  | gpsLogin (raw : List Char)
  | tkLogin (imei : List Char)
  | gpsLocation (imei : List Char) (latitude longitude : ℚ) (speed : Option ℚ)
      (validity : Bool) (timestamp : JsDateR) (raw : List Char)
  | gtLocation (timestamp : JsDateR) (latitude longitude : ℚ) (speed : Nat)
      (course : Nat) (satellites : Nat) (gpsFixed : Bool)
  | heartbeat (data : List Nat)
  | alarm (timestamp : JsDateR) (latitude longitude : ℚ) (speed : Nat)
      (course : Nat) (alarmType : String) (alarmCode : Nat)
  | response (hexStr : List Char) (data : List Nat)
  | gtUnknown (protocolNumber : Nat) (data : List Nat)
  | unknown (hex ascii : List Char) (length : Nat)
deriving DecidableEq

/-- The `type` string of an event object. -/
def PData.ptype : PData → String
  | .login .. => "login"
  | .gpsLogin _ => "login"
  | .tkLogin _ => "login"
  | .gpsLocation .. => "location"
  | .gtLocation .. => "location"
  | .heartbeat _ => "heartbeat"
  | .alarm .. => "alarm"
  | .response .. => "response"
  | .gtUnknown .. => "unknown"
  | .unknown .. => "unknown"

/-- The `imei` property of an event object (`none` when the object carries
no such field). -/
def PData.pimei : PData → Option (List Char)
  | .login i _ => some i
  | .tkLogin i => some i
  | .gpsLocation i .. => some i
  | _ => none

/-- Whether the event object carries `protocol: "gps303"` (set only by the
GPS303 sub-codec on its own data objects). -/
def PData.isGps303Tagged : PData → Bool
  | .gpsLogin _ => true
  | .gpsLocation .. => true
  | _ => false

/-- Result of one sub-codec `parse` call: a success object, a
`success:false` object, or a thrown exception. -/
inductive SubRes where
  | ok (data : PData) (bytesProcessed : Nat)
  | fail (error : String)
  | exn (msg : String)
deriving DecidableEq

/-- `true` unless the sub-result is a success object. -/
def SubRes.notOk : SubRes → Bool
  | .ok .. => false
  | _ => true

/-! ## GT06 sub-codec -/

/-- `GT06Parser.parseIMEI`: hex-render each of the bytes, two lowercase
digits each (`toString(16).padStart(2, "0")`), and concatenate. -/
def GT06Parser.parseIMEI (buffer : List Nat) : List Char :=
  buffer.foldl (fun acc b => acc ++ padStart2 (byteHexChars b)) []

/-- `GT06Parser.parseDateTime`: `new Date(2000+b0, b1-1, b2, b3, b4, b5)`. -/
def GT06Parser.parseDateTime (d : List Nat) : JsDateR :=
  .ctor (some (2000 + (d.getD 0 0 : Int))) (some ((d.getD 1 0 : Int) - 1))
    (some (d.getD 2 0 : Int)) (some (d.getD 3 0 : Int))
    (some (d.getD 4 0 : Int)) (some (d.getD 5 0 : Int))

/-- `GT06Parser.parseCoordinate`: unsigned 32-bit value over 1 800 000. -/
def GT06Parser.parseCoordinate (v : Nat) : ℚ := (v : ℚ) / 1800000

/-- `GT06Parser.parseLogin` (throws on short data). -/
def GT06Parser.parseLogin (data : List Nat) : Except String PData :=
  if data.length < 10 then .error "Invalid login data length"
  else .ok (.login (GT06Parser.parseIMEI (data.take 8)) (readU16 data 8))

/-- `GT06Parser.parseLocation` (throws on short data). -/
def GT06Parser.parseLocation (data : List Nat) : Except String PData :=
  if data.length < 21 then .error "Invalid location data length"
  else
    let quantity := data.getD 6 0
    .ok (.gtLocation (GT06Parser.parseDateTime (data.take 6))
      (GT06Parser.parseCoordinate (readU32 data 7))
      (GT06Parser.parseCoordinate (readU32 data 11))
      (data.getD 15 0) (readU16 data 16)
      (quantity % 16) (decide ((quantity / 16) % 2 = 1)))

/-- Alarm-code to message mapping from `GT06Parser.parseAlarm`. -/
def GT06Parser.alarmMessage (code : Nat) : String :=
  if code = 0 then "Normal"
  else if code = 1 then "SOS"
  else if code = 2 then "Power Cut"
  else if code = 3 then "Vibration"
  else if code = 4 then "Fence In"
  else if code = 5 then "Fence Out"
  else if code = 6 then "Over Speed"
  else "Unknown alarm"

/-- `GT06Parser.parseAlarm` (throws on short data). -/
def GT06Parser.parseAlarm (data : List Nat) : Except String PData :=
  if data.length < 21 then .error "Invalid alarm data length"
  else
    let alarmType := data.getD 18 0
    .ok (.alarm (GT06Parser.parseDateTime (data.take 6))
      (GT06Parser.parseCoordinate (readU32 data 7))
      (GT06Parser.parseCoordinate (readU32 data 11))
      (data.getD 15 0) (readU16 data 16)
      (GT06Parser.alarmMessage alarmType) alarmType)

/-- `GT06Parser.parse`: start bits, length, stop bits, then a dispatch on
the protocol number; `data = buffer.slice(4, 3 + length - 1)`. -/
def GT06Parser.parse (buffer : List Nat) : SubRes :=
  if buffer.length < 5 then .fail "Buffer too small"
  else if ¬(buffer.getD 0 0 = 0x78 ∧ buffer.getD 1 0 = 0x78) then
    .fail "Invalid start bits"
  else
    let len := buffer.getD 2 0
    let totalLength := len + 5
    if buffer.length < totalLength then .fail "Incomplete packet"
    else if ¬(buffer.getD (totalLength - 2) 0 = 0x0D ∧
              buffer.getD (totalLength - 1) 0 = 0x0A) then
      .fail "Invalid stop bits"
    else
      let protocolNumber := buffer.getD 3 0
      let data := (buffer.take (len + 2)).drop 4
      let parsed : Except String PData :=
        if protocolNumber = 0x01 then GT06Parser.parseLogin data
        else if protocolNumber = 0x12 then GT06Parser.parseLocation data
        else if protocolNumber = 0x13 then .ok (.heartbeat data)
        else if protocolNumber = 0x16 then GT06Parser.parseAlarm data
        else if protocolNumber = 0x15 then .ok (.response (hexOfBytes data) data)
        else .ok (.gtUnknown protocolNumber data)
      match parsed with
      | .ok d => .ok d totalLength
      | .error e => .exn e

/-- `GT06Parser.calculateCRC`: additive 16-bit sum. -/
def GT06Parser.calculateCRC (data : List Nat) : Nat :=
  (data.foldl (· + ·) 0) % 65536

/-- `GT06Parser.wrapCommand`.  The JavaScript allocates a zero-filled
buffer of `length + 5` bytes where `length = data.length + 1`, writes the
start bytes, length and data, computes the CRC over
`buffer.slice(2, 3 + length)` (which includes one still-zero byte past the
data) and writes it big-endian at offset `3 + length`, leaving the byte at
offset `3 + data.length` zero and writing no stop bytes. -/
def GT06Parser.wrapCommand (data : List Nat) : List Nat :=
  let len := data.length + 1
  let crc := GT06Parser.calculateCRC ([len % 256] ++ data ++ [0])
  [0x78, 0x78, len % 256] ++ data ++ [0, crc / 256, crc % 256]

/-- `GT06Parser.buildCommand`. -/
def GT06Parser.buildCommand (command : String) : Option (List Nat) :=
  if command = "locate" then some (GT06Parser.wrapCommand [0x80, 0x01, 0x01, 0x01])
  else if command = "reboot" then some (GT06Parser.wrapCommand [0x80, 0x02, 0x01, 0x01])
  else if command = "engine_stop" then some (GT06Parser.wrapCommand [0x80, 0x05, 0x01, 0x01])
  else if command = "engine_resume" then some (GT06Parser.wrapCommand [0x80, 0x05, 0x01, 0x00])
  else none

/-- `GT06Parser.buildAuthResponse`. -/
def GT06Parser.buildAuthResponse (success : Bool) : Option (List Nat) :=
  some (GT06Parser.wrapCommand [0x01, if success then 1 else 0])

/-- `GT06Parser.buildLoginResponse`. -/
def GT06Parser.buildLoginResponse (success : Bool) : Option (List Nat) :=
  some (GT06Parser.wrapCommand [0x01, if success then 1 else 0])

/-- `GT06Parser.buildLocationAck`. -/
def GT06Parser.buildLocationAck (sequence : Nat) : Option (List Nat) :=
  some (GT06Parser.wrapCommand [0x05, 0x01, sequence % 256])

/-- `GT06Parser.buildHeartbeatResponse`. -/
def GT06Parser.buildHeartbeatResponse : Option (List Nat) :=
  some (GT06Parser.wrapCommand [0x13, 0x01])

/-! ## TK103 sub-codec -/

/-- `TK103Parser.parse` / `parseTK103Message`. -/
def TK103Parser.parse (buffer : List Nat) : SubRes :=
  let data := asciiOf buffer
  if startsWithS data (strL "##") then
    let parts := splitOnChar ',' data
    if parts.length < 2 then .fail "Invalid TK103 message"
    else if startsWithS (parts.getD 1 []) (strL "imei:") then
      .ok (.tkLogin ((parts.getD 1 []).drop 5)) data.length
    else .fail "Unknown TK103 message type"
  else .fail "Not TK103 protocol"

/-- `TK103Parser.buildCommand`. -/
def TK103Parser.buildCommand (command : String) : Option (List Nat) :=
  if command = "locate" then some (asciiBytes "**,imei:000000000000000,C,01m;")
  else none

/-! ## GPS303 sub-codec -/

/-- `GPS303Parser.parseCoordinate`: `DDMM.MMMM` to decimal degrees via
`Math.floor(coord / 100) + (coord % 100) / 60`, with 0 on `NaN`. -/
def GPS303Parser.parseCoordinate (s : List Char) : ℚ :=
  match jsParseFloat s with
  | none => 0
  | some coord => ((⌊coord / 100⌋ : Int) : ℚ) + jsRem coord 100 / 60

/-- `GPS303Parser.parseDateTime`: with an empty `time`, a 12-digit
`YYMMDDhhmmss` field becomes `new Date(2000+YY, MM-1, DD, hh, mm, ss)`,
anything shorter falls back to `new Date()` (the receipt time). -/
def GPS303Parser.parseDateTime (date time : List Char) : JsDateR :=
  if trimChars time = [] then
    if 12 ≤ date.length then
      .ctor ((jsParseInt (subChars date 0 2)).map (2000 + ·))
        ((jsParseInt (subChars date 2 4)).map (· - 1))
        (jsParseInt (subChars date 4 6)) (jsParseInt (subChars date 6 8))
        (jsParseInt (subChars date 8 10)) (jsParseInt (subChars date 10 12))
    else .now
  else
    .ctor ((jsParseInt (subChars date 0 2)).map (2000 + ·))
      ((jsParseInt (subChars date 2 4)).map (· - 1))
      (jsParseInt (subChars date 4 6)) (jsParseInt (subChars time 0 2))
      (jsParseInt (subChars time 2 4)) (jsParseInt (subChars time 4 6))

/-- `GPS303Parser.parse`: `##…` is a login frame; `imei:…` with at least 12
comma-separated fields is a position frame; both consume the whole buffer. -/
def GPS303Parser.parse (buffer : List Nat) : SubRes :=
  let data := asciiOf buffer
  if startsWithS data (strL "##") then
    .ok (.gpsLogin data) buffer.length
  else if startsWithS data (strL "imei:") then
    let parts := splitOnChar ',' (trimChars data)
    if 12 ≤ parts.length then
      let imei := (splitOnChar ':' (parts.getD 0 [])).getD 1 []
      let speed : Option ℚ :=
        if parts.getD 11 [] = [] then some 0 else jsParseFloat (parts.getD 11 [])
      let latitude := GPS303Parser.parseCoordinate (parts.getD 7 [])
      let longitude := GPS303Parser.parseCoordinate (parts.getD 9 [])
      let finalLat := if parts.getD 8 [] = strL "S" then -latitude else latitude
      let finalLon := if parts.getD 10 [] = strL "W" then -longitude else longitude
      .ok (.gpsLocation imei finalLat finalLon speed
        (parts.getD 6 [] = strL "A")
        (GPS303Parser.parseDateTime (parts.getD 2 []) []) data) buffer.length
    else .fail ""
  else .fail ""

/-! ## H02 and generic sub-codecs -/

/-- `H02Parser.parse`: unimplemented, rejects everything. -/
def H02Parser.parse (_ : List Nat) : SubRes :=
  .fail "H02 parser not implemented yet"

/-- `GenericParser.parse`: always succeeds, consuming the whole buffer. -/
def GenericParser.parse (buffer : List Nat) : SubRes :=
  .ok (.unknown (hexOfBytes buffer) (asciiPrintable buffer) buffer.length)
    buffer.length

/-! ## Top-level codec -/

/-- Protocol fingerprint names. -/
inductive Protocol where
  | gps303 | gt06 | tk103 | h02 | generic
deriving DecidableEq

/-- `this.defaultParser = "gps303"`. -/
def defaultProto : Protocol := .gps303

/-- Result object of `ProtocolParser.parse`. -/
structure TopResult where
  success : Bool
  protocol : Option Protocol
  data : Option PData
  bytesProcessed : Nat
deriving DecidableEq

/-- One iteration of the `ProtocolParser.parse` trial loop: if the
sub-result is a success object, tag it with the protocol and return it;
on a `success:false` object or a thrown exception continue with the
remaining parsers. -/
def tryNext (r : SubRes) (p : Protocol) (next : TopResult) : TopResult :=
  match r with
  | .ok d n => ⟨true, some p, some d, n⟩
  | _ => next

/-- `ProtocolParser.parse`: try the specific sub-codecs in insertion order
(`gps303`, `gt06`, `tk103`, `h02`), treating a thrown exception like a
failure, then fall back to the generic sub-codec. -/
def ProtocolParser.parse (buffer : List Nat) : TopResult :=
  tryNext (GPS303Parser.parse buffer) .gps303
    (tryNext (GT06Parser.parse buffer) .gt06
      (tryNext (TK103Parser.parse buffer) .tk103
        (tryNext (H02Parser.parse buffer) .h02
          (match GenericParser.parse buffer with
           | .ok d n => ⟨true, some .generic, some d, n⟩
           | _ => ⟨false, none, none, 0⟩))))

/-- All four specific sub-codecs fail (reject, need-more or throw) on the
buffer. -/
def allSpecificFail (buffer : List Nat) : Prop :=
  (GPS303Parser.parse buffer).notOk = true ∧
  (GT06Parser.parse buffer).notOk = true ∧
  (TK103Parser.parse buffer).notOk = true ∧
  (H02Parser.parse buffer).notOk = true

instance (buffer : List Nat) : Decidable (allSpecificFail buffer) := by
  unfold allSpecificFail; infer_instance

/-- `ProtocolParser.buildCommand`.  With no protocol argument the default
`gps303` sub-codec is selected; `GPS303Parser` defines no `buildCommand`
method, so the call `parser.buildCommand(...)` throws a `TypeError`
(modelled as `Except.error`). -/
def ProtocolParser.buildCommand (command : String)
    (protocol : Option Protocol := none) : Except String (Option (List Nat)) :=
  match protocol.getD defaultProto with
  | .gps303 => .error "TypeError"
  | .gt06 => .ok (GT06Parser.buildCommand command)
  | .tk103 => .ok (TK103Parser.buildCommand command)
  | .h02 => .ok none
  | .generic => .ok (some (asciiBytes command))

/-- `ProtocolParser.buildAuthResponse` (default protocol `gps303`). -/
def ProtocolParser.buildAuthResponse (success : Bool)
    (protocol : Option Protocol := none) : Option (List Nat) :=
  match protocol.getD defaultProto with
  | .gps303 => if success then some (asciiBytes "LOAD") else none
  | .gt06 => GT06Parser.buildAuthResponse success
  | .tk103 => if success then some (asciiBytes "LOAD") else none
  | .h02 => none
  | .generic => some (asciiBytes "OK")

/-- `ProtocolParser.buildLoginResponse` (default protocol `gps303`; the
GPS303 implementation ignores the flag and always returns `LOAD`). -/
def ProtocolParser.buildLoginResponse (success : Bool)
    (protocol : Option Protocol := none) : Option (List Nat) :=
  match protocol.getD defaultProto with
  | .gps303 => some (asciiBytes "LOAD")
  | .gt06 => GT06Parser.buildLoginResponse success
  | .tk103 => if success then some (asciiBytes "LOAD") else none
  | .h02 => none
  | .generic => some (asciiBytes "OK")

/-- `ProtocolParser.buildLocationAck` (default protocol `gps303`). -/
def ProtocolParser.buildLocationAck (sequence : Nat)
    (protocol : Option Protocol := none) : Option (List Nat) :=
  match protocol.getD defaultProto with
  | .gps303 => some (asciiBytes "ON")
  | .gt06 => GT06Parser.buildLocationAck sequence
  | .tk103 => some (asciiBytes "ON")
  | .h02 => none
  | .generic => some (asciiBytes "ACK")

/-- `ProtocolParser.buildHeartbeatResponse` (default protocol `gps303`). -/
def ProtocolParser.buildHeartbeatResponse
    (protocol : Option Protocol := none) : Option (List Nat) :=
  match protocol.getD defaultProto with
  | .gps303 => some (asciiBytes "ON")
  | .gt06 => GT06Parser.buildHeartbeatResponse
  | .tk103 => some (asciiBytes "ON")
  | .h02 => none
  | .generic => some (asciiBytes "PONG")

/-! ## Association-list maps (JavaScript `Map` / keyed store rows) -/

/-- `Map.get`. -/
def getA {α β : Type} [DecidableEq α] : List (α × β) → α → Option β
  | [], _ => none
  | (k', v) :: r, k => if k' = k then some v else getA r k

/-- `Map.set`: replace in place, or append a fresh entry. -/
def setA {α β : Type} [DecidableEq α] : List (α × β) → α → β → List (α × β)
  | [], k, v => [(k, v)]
  | (k', v') :: r, k, v =>
    if k' = k then (k, v) :: r else (k', v') :: setA r k v

/-- `Map.delete` (on maps with unique keys). -/
def delA {α β : Type} [DecidableEq α] : List (α × β) → α → List (α × β)
  | [], _ => []
  | (k', v') :: r, k => if k' = k then delA r k else (k', v') :: delA r k

theorem getA_setA_self {α β : Type} [DecidableEq α]
    (m : List (α × β)) (k : α) (v : β) : getA (setA m k v) k = some v := by
  induction m with
  | nil => simp [setA, getA]
  | cons kv r ih =>
    obtain ⟨k', v'⟩ := kv
    by_cases h : k' = k <;> simp [setA, getA, h, ih]

theorem getA_delA_self {α β : Type} [DecidableEq α]
    (m : List (α × β)) (k : α) : getA (delA m k) k = none := by
  induction m with
  | nil => simp [delA, getA]
  | cons kv r ih =>
    obtain ⟨k', v'⟩ := kv
    by_cases h : k' = k <;> simp [delA, getA, h, ih]

/-! ## Command-status store (`DatabaseService.updateCommandStatus`) -/

/-- One row of the `commands` table (timestamps as was-set flags, since the
concrete clock value is external). -/
structure CmdRow where
  status : String
  response : Option String := none
  errorMsg : Option String := none
  sentAt : Bool := false
  ackAt : Bool := false
  failedAt : Bool := false
deriving DecidableEq

/-- The optional `data` argument of `updateCommandStatus`. -/
structure UpdData where
  response : Option String := none
  error : Option String := none
  sent_at : Bool := false
  ack_at : Bool := false
  failed_at : Bool := false

/-- The `SET` clause built by `updateCommandStatus`: the status column is
assigned unconditionally, the timestamp columns per the status value or the
supplied fields. -/
def applyUpd (r : CmdRow) (status : String) (d : UpdData) : CmdRow :=
  { status := status,
    response := if d.response.isSome then d.response else r.response,
    errorMsg := if d.error.isSome then d.error else r.errorMsg,
    sentAt := if status = "sent" || d.sent_at then true else r.sentAt,
    ackAt := if status = "acknowledged" || d.ack_at then true else r.ackAt,
    failedAt := if status = "failed" || d.failed_at then true else r.failedAt }

/-- `DatabaseService.updateCommandStatus`: `UPDATE commands SET … WHERE
id = $1` — every row whose id matches is overwritten, regardless of its
current status. -/
def DatabaseService.updateCommandStatus (tbl : List (String × CmdRow))
    (commandId status : String) (d : UpdData) : List (String × CmdRow) :=
  tbl.map (fun kv => if kv.1 = commandId then (kv.1, applyUpd kv.2 status d) else kv)

/-! ## TCP server session/registry model (`src/tcp-server.js`) -/

/-- A `deviceConnection` object; `cid` identifies its socket. -/
structure Conn where
  cid : Nat
  imei : Option (List Char) := none
  authenticated : Bool := false
  buffer : List Nat := []
deriving DecidableEq

/-- Observable server state: the `connectedDevices` registry, the store's
`online` flags, destroyed sockets, socket writes, persisted rows and queue
publications, and the `commands` table. -/
structure SrvSt where
  registry : List (List Char × Nat) := []
  online : List (List Char × Bool) := []
  destroyed : List Nat := []
  writes : List (Nat × List Nat) := []
  savedLocations : List (ℚ × ℚ × ℚ) := []
  savedAlerts : Nat := 0
  published : Nat := 0
  touchedLogins : List (Option (List Char)) := []
  touchedHeartbeats : List (Option (List Char)) := []
  commands : List (String × CmdRow) := []
deriving DecidableEq

/-- JavaScript truthiness of the `imei` property (`undefined` and the empty
string are falsy). -/
def truthyImei : Option (List Char) → Bool
  | none => false
  | some s => !(s = [])

/-- A conditional socket write (`if (response) socket.write(response)`). -/
def writeOpt (cid : Nat) : Option (List Nat) → List (Nat × List Nat)
  | some r => [(cid, r)]
  | none => []

/-- `TCPServer.authenticateDevice`: look the IMEI up in the store
(`getDeviceByImei` filters on `active = true`, abstracted as `db`); on a
miss destroy the socket; on a hit mark the connection authenticated,
overwrite the registry entry, set the device online, and send the auth
response built with the default (`gps303`) sub-codec.  The displaced
registry entry's socket is not touched. -/
def TCPServer.authenticateDevice (db : List Char → Bool) (st : SrvSt)
    (c : Conn) (imei : List Char) : SrvSt × Conn :=
  if db imei then
    let c' := { c with imei := some imei, authenticated := true }
    ({ st with registry := setA st.registry imei c.cid,
               online := setA st.online imei true,
               writes := st.writes ++ writeOpt c.cid (ProtocolParser.buildAuthResponse true none) },
     c')
  else
    ({ st with destroyed := st.destroyed ++ [c.cid] }, c)

/-- `TCPServer.handleDisconnection`: if the connection had an IMEI, delete
that IMEI's registry entry (whichever session it currently points to) and
mark the device offline. -/
def TCPServer.handleDisconnection (st : SrvSt) (c : Conn) : SrvSt :=
  match c.imei with
  | none => st
  | some i =>
    { st with registry := delA st.registry i, online := setA st.online i false }

/-- Latitude of an event object (only read on `location`/`alarm` events). -/
def PData.latQ : PData → ℚ
  | .gpsLocation _ la _ _ _ _ _ => la
  | .gtLocation _ la _ _ _ _ _ => la
  | .alarm _ la _ _ _ _ _ => la
  | _ => 0

/-- Longitude of an event object. -/
def PData.lonQ : PData → ℚ
  | .gpsLocation _ _ lo _ _ _ _ => lo
  | .gtLocation _ _ lo _ _ _ _ => lo
  | .alarm _ _ lo _ _ _ _ => lo
  | _ => 0

/-- `data.speed || 0` of an event object (`NaN`, absent and `0` all give 0). -/
def PData.speedQ : PData → ℚ
  | .gpsLocation _ _ _ sp _ _ _ => sp.getD 0
  | .gtLocation _ _ _ sp _ _ _ => (sp : ℚ)
  | .alarm _ _ _ sp _ _ _ => (sp : ℚ)
  | _ => 0

/-- Result of one `handleDeviceData` call: updated server state, updated
connection, and the protocol fingerprint the parse result carried (if the
parse succeeded). -/
structure HDOut where
  st : SrvSt
  conn : Conn
  protoUsed : Option Protocol
deriving DecidableEq

/-- `TCPServer.handleDeviceData`: append to the per-connection buffer,
parse once, on failure keep the buffer (clearing it only above 1024 bytes),
on success advance the buffer and dispatch the typed event: the GPS303
pre-auth login answer, the authentication attempt on a truthy `imei`
property, the unauthenticated drop, and the per-type handlers (all acks
built with the default `gps303` sub-codec, since no protocol argument is
passed anywhere). -/
def TCPServer.handleDeviceData (db : List Char → Bool) (st : SrvSt)
    (c : Conn) (data : List Nat) : HDOut :=
  let buf := c.buffer ++ data
  let r := ProtocolParser.parse buf
  if !r.success then
    ⟨st, { c with buffer := if 1024 < buf.length then [] else buf }, none⟩
  else
    let c1 := { c with buffer := buf.drop r.bytesProcessed }
    match r.data with
    | none => ⟨st, c1, r.protocol⟩
    | some d =>
      if d.ptype = "login" ∧ d.isGps303Tagged then
        ⟨{ st with writes := st.writes ++ [(c1.cid, asciiBytes "LOAD")] }, c1, r.protocol⟩
      else
        let stc2 :=
          if !c1.authenticated && truthyImei d.pimei then
            TCPServer.authenticateDevice db st c1 (d.pimei.getD [])
          else (st, c1)
        let st2 := stc2.1
        let c2 := stc2.2
        if !c2.authenticated && !(d.ptype = "login") then ⟨st2, c2, r.protocol⟩
        else if d.ptype = "login" then
          ⟨{ st2 with touchedLogins := st2.touchedLogins ++ [c2.imei],
                      writes := st2.writes ++
                        writeOpt c2.cid (ProtocolParser.buildLoginResponse true none) },
           c2, r.protocol⟩
        else if d.ptype = "location" then
          ⟨{ st2 with savedLocations := st2.savedLocations ++ [(d.latQ, d.lonQ, d.speedQ)],
                      published := st2.published + 1,
                      writes := st2.writes ++
                        writeOpt c2.cid (ProtocolParser.buildLocationAck 0 none) },
           c2, r.protocol⟩
        else if d.ptype = "heartbeat" then
          ⟨{ st2 with touchedHeartbeats := st2.touchedHeartbeats ++ [c2.imei],
                      writes := st2.writes ++
                        writeOpt c2.cid (ProtocolParser.buildHeartbeatResponse none) },
           c2, r.protocol⟩
        else if d.ptype = "alarm" then
          ⟨{ st2 with savedAlerts := st2.savedAlerts + 1,
                      published := st2.published + 1 }, c2, r.protocol⟩
        else
          ⟨st2, c2, r.protocol⟩

/-- A `device_commands` delivery payload (the fields the dispatcher reads). -/
structure CmdMsg where
  imei : List Char
  command : String
  commandId : String

/-- `TCPServer.handleDeviceCommand`: resolve the session; on a miss record
`failed / "Device not connected"`; otherwise build the command bytes with
no protocol argument (default `gps303`); a thrown `TypeError` is swallowed
by the surrounding catch, leaving state untouched; a `null` build records
`failed / "Invalid command format"`; bytes are written and the command is
marked `sent`. -/
def TCPServer.handleDeviceCommand (st : SrvSt) (m : CmdMsg) : SrvSt :=
  match getA st.registry m.imei with
  | none =>
    let cs := DatabaseService.updateCommandStatus st.commands m.commandId "failed"
    { st with commands := cs { error := some "Device not connected", failed_at := true } }
  | some cid =>
    match ProtocolParser.buildCommand m.command none with
    | .error _ => st
    | .ok none =>
      let cs := DatabaseService.updateCommandStatus st.commands m.commandId "failed"
      { st with commands := cs { error := some "Invalid command format", failed_at := true } }
    | .ok (some bytes) =>
      let cs := DatabaseService.updateCommandStatus st.commands m.commandId "sent"
      { st with writes := st.writes ++ [(cid, bytes)], commands := cs { sent_at := true } }

/-! ## Authentication-deadline model (`TCPServer.handleConnection`) -/

/-- Timer-relevant connection state: the 30-second timeout armed on accept,
the `authenticated` flag, and whether the socket was destroyed. -/
structure AuthTimerSt where
  authenticated : Bool := false
  timerActive : Bool := true
  destroyed : Bool := false
deriving DecidableEq

/-- Events at a connection: a `data` event (with the abstract outcome of
`handleDeviceData` — whether this chunk led to successful authentication),
and the 30-second timer callback firing. -/
inductive ConnEvent where
  | dataEv (authOk : Bool)
  | timerFire
deriving DecidableEq

/-- One event step.  The `data` handler's first action is
`clearTimeout(authTimeout)`, unconditionally; the timer callback destroys
the socket only when still armed and unauthenticated. -/
def timerStep (s : AuthTimerSt) : ConnEvent → AuthTimerSt
  | .dataEv ok => { s with timerActive := false, authenticated := s.authenticated || ok }
  | .timerFire =>
    if s.timerActive && !s.authenticated then { s with destroyed := true } else s

/-- Run a connection-event trace. -/
def runTimer (s : AuthTimerSt) : List ConnEvent → AuthTimerSt :=
  List.foldl timerStep s

/-! ## Specification-side reference definitions -/

/-- The reference outbound GT06 frame of spec §4.2, for comparison:
`0x78 0x78 | (len = datalen+1) | data… | crc(2) | 0x0D 0x0A`, CRC the
additive 16-bit sum over `len..data`. -/
def specGt06CommandFrame (data : List Nat) : List Nat :=
  let len := data.length + 1
  let crc := GT06Parser.calculateCRC ([len] ++ data)
  [0x78, 0x78, len] ++ data ++ [crc / 256, crc % 256, 0x0D, 0x0A]

/-- The coordinate formula stated by the spec:
`int(x/100) + (x mod 100)/60` with mathematical floor and modulus. -/
def specCoordinate (x : ℚ) : ℚ :=
  ((⌊x / 100⌋ : Int) : ℚ) + (x - 100 * ((⌊x / 100⌋ : Int) : ℚ)) / 60

/-- The hexadecimal rendering stated by claim C10: each byte as exactly two
lowercase hex digits, leading zeros preserved. -/
def specHexRender (bs : List Nat) : List Char :=
  bs.flatMap (fun b => [hexDigitChar (b / 16), hexDigitChar (b % 16)])

/-! ## Concrete wire frames used by the scenarios -/

/-- A minimal complete GT06 heartbeat frame (`len = 1`, protocol `0x13`). -/
def frameGt06Hb : List Nat := [0x78, 0x78, 0x01, 0x13, 0x0D, 0x0A]

/-- The GPS303 login line of scenario S2. -/
def frameGpsLogin : List Nat := asciiBytes "##,imei:359710045490084,A;"

/-- A truncated GT06 frame: valid start bytes, length byte `0x0D` (so the
full frame would be 18 bytes), but only 6 bytes received. -/
def frameGt06Part : List Nat := [0x78, 0x78, 0x0D, 0x01, 0x03, 0x59]

/-- The GPS303 position frame of scenario S2 (12 comma-separated fields). -/
def frameS2 : List Nat :=
  asciiBytes "imei:359710045490084,tracker,250101120000,,F,120000.000,A,2230.0000,S,04310.0000,W,42.5"

/-! ## Supporting lemmas -/

theorem tryNext_ok (d : PData) (n : Nat) (p : Protocol) (next : TopResult) :
    tryNext (.ok d n) p next = ⟨true, some p, some d, n⟩ := rfl

theorem tryNext_notOk (r : SubRes) (p : Protocol) (next : TopResult)
    (h : r.notOk = true) : tryNext r p next = next := by
  cases r with
  | ok d n => simp [SubRes.notOk] at h
  | fail e => rfl
  | exn m => rfl

theorem padStart2_byteHexChars (b : Nat) (hb : b < 256) :
    padStart2 (byteHexChars b) = [hexDigitChar (b / 16), hexDigitChar (b % 16)] := by
  by_cases h : b < 16
  · have h1 : b / 16 = 0 := Nat.div_eq_of_lt h
    have h2 : b % 16 = b := Nat.mod_eq_of_lt h
    have h0 : hexDigitChar 0 = '0' := by decide
    simp [byteHexChars, h, padStart2, h1, h2, h0, List.replicate]
  · simp [byteHexChars, h, padStart2]

theorem specHexRender_nil : specHexRender [] = [] := rfl

theorem specHexRender_cons (b : Nat) (r : List Nat) :
    specHexRender (b :: r) =
      [hexDigitChar (b / 16), hexDigitChar (b % 16)] ++ specHexRender r := by
  simp [specHexRender]

theorem specHexRender_length (bs : List Nat) :
    (specHexRender bs).length = 2 * bs.length := by
  induction bs with
  | nil => rfl
  | cons b r ih => simp [specHexRender_cons, ih]; ring

theorem parseIMEI_foldl (bs : List Nat) (acc : List Char)
    (hb : ∀ b ∈ bs, b < 256) :
    bs.foldl (fun a b => a ++ padStart2 (byteHexChars b)) acc =
      acc ++ specHexRender bs := by
  induction bs generalizing acc with
  | nil => simp [specHexRender]
  | cons b r ih =>
    have hbb : b < 256 := hb b (List.mem_cons_self b r)
    have hr : ∀ x ∈ r, x < 256 := fun x hx => hb x (List.mem_cons_of_mem b hx)
    rw [List.foldl_cons, ih _ hr, padStart2_byteHexChars b hbb,
      specHexRender_cons, List.append_assoc]

/-! ## Claim C1 -/

/-- C1: the spec claims every GT06 outbound frame matches
`0x78 0x78 | (len=datalen+1) | data | crc(2) | 0x0D 0x0A`, with
`encode_command(engine_stop) = 7878 05 80 05 01 01 <crc:2> 0D 0A`.
The code's `wrapCommand` instead allocates one byte too many, leaves a
stray zero byte between the data and the CRC, writes the CRC one offset
too far, and writes no stop bytes at all: `engine_stop` encodes to
`78 78 05 80 05 01 01 00 00 8C`, which differs from the reference frame
and which the repository's own GT06 decoder rejects ("Invalid stop
bits"); the GT06 login/auth ack is malformed in the same way. -/
theorem c1_engine_stop_encoding_bug :
    GT06Parser.buildCommand "engine_stop" =
      some [0x78, 0x78, 0x05, 0x80, 0x05, 0x01, 0x01, 0x00, 0x00, 0x8C] ∧
    specGt06CommandFrame [0x80, 0x05, 0x01, 0x01] =
      [0x78, 0x78, 0x05, 0x80, 0x05, 0x01, 0x01, 0x00, 0x8C, 0x0D, 0x0A] ∧
    GT06Parser.buildCommand "engine_stop" ≠
      some (specGt06CommandFrame [0x80, 0x05, 0x01, 0x01]) ∧
    GT06Parser.parse [0x78, 0x78, 0x05, 0x80, 0x05, 0x01, 0x01, 0x00, 0x00, 0x8C] =
      .fail "Invalid stop bits" ∧
    ProtocolParser.buildAuthResponse true (some .gt06) =
      some [0x78, 0x78, 0x03, 0x01, 0x01, 0x00, 0x00, 0x05] := by
  decide

/-! ## Claim C4 -/

/-- C4 counterexample: the claim says bytes that do not decode to a frame
with a valid IMEI do not cancel the 30-second authentication deadline.  In
the code the `data` handler's first statement is `clearTimeout(authTimeout)`,
so after one garbage data event the timer callback no longer destroys the
socket: the connection survives the deadline unauthenticated. -/
theorem c4_data_cancels_deadline_cex :
    (runTimer {} [.dataEv false, .timerFire]).destroyed = false ∧
    (runTimer {} [.dataEv false, .timerFire]).authenticated = false := by
  decide

/-- C4 amended: the 30-second deadline closes only a connection that sent
no data at all: a silent unauthenticated connection is destroyed when the
timer fires, while the first data event — whether or not it ever yields a
valid IMEI — permanently cancels the deadline, so no later timer fire
destroys the socket. -/
theorem c4_deadline_only_for_silent_connections :
    (runTimer {} [.timerFire]).destroyed = true ∧
    ∀ (ok : Bool) (evs : List ConnEvent),
      (runTimer {} (.dataEv ok :: evs)).destroyed = false := by
  refine ⟨by decide, ?_⟩
  intro ok evs
  have key : ∀ (l : List ConnEvent) (s : AuthTimerSt),
      s.timerActive = false → s.destroyed = false →
      (runTimer s l).destroyed = false := by
    intro l
    induction l with
    | nil => intro s h1 h2; simpa [runTimer] using h2
    | cons e r ih =>
      intro s h1 h2
      have hstep : runTimer s (e :: r) = runTimer (timerStep s e) r := by
        simp [runTimer]
      rw [hstep]
      cases e with
      | dataEv ok2 =>
        exact ih _ (by simp [timerStep]) (by simp [timerStep, h2])
      | timerFire =>
        have : timerStep s .timerFire = s := by simp [timerStep, h1]
        rw [this]
        exact ih s h1 h2
  have hstep : runTimer {} (ConnEvent.dataEv ok :: evs) =
      runTimer (timerStep {} (.dataEv ok)) evs := by simp [runTimer]
  rw [hstep]
  exact key evs _ (by simp [timerStep]) (by simp [timerStep])

/-! ## Claim C6 -/

/-- C6: the claim (and the dead branch in `handleDeviceCommand`) says an
unsupported command kind is recorded as `failed` with error
`"Invalid command format"`.  In the code the dispatcher never passes a
protocol to `ProtocolParser.buildCommand`, so the default `gps303`
sub-codec is selected; `GPS303Parser` has no `buildCommand` method, the
call throws a `TypeError` before the null-check, the surrounding catch
swallows it, and — for every command kind whatsoever — no status is
written and nothing reaches the socket: the delivery leaves the store and
the sockets completely unchanged. -/
theorem c6_dispatch_throws_no_failed_write (st : SrvSt) (m : CmdMsg) (cid : Nat)
    (h : getA st.registry m.imei = some cid) :
    TCPServer.handleDeviceCommand st m = st ∧
    ProtocolParser.buildCommand m.command none = .error "TypeError" := by
  constructor
  · unfold TCPServer.handleDeviceCommand
    rw [h]
    rfl
  · rfl

/-- C6 witness: a connected device and a pending command row; the delivery
is processed and the state is bit-for-bit unchanged. -/
theorem c6_dispatch_throws_no_failed_write_witness :
    TCPServer.handleDeviceCommand
      { registry := [(strL "862001000000000", 7)],
        commands := [("c9", { status := "pending" })] }
      { imei := strL "862001000000000", command := "locate", commandId := "c9" } =
    { registry := [(strL "862001000000000", 7)],
      commands := [("c9", { status := "pending" })] } :=
  (c6_dispatch_throws_no_failed_write _ _ 7 (by decide)).1

/-! ## Claim C7 -/

/-- C7 counterexample: the claim says `failed` and `acknowledged` are
terminal and a duplicate `sent` write never overwrites `acknowledged`.
`updateCommandStatus` runs `UPDATE commands SET status = $2 WHERE id = $1`
with no guard on the current status, so replaying a delivery against an
acknowledged row rewrites it to `sent`. -/
theorem c7_sent_overwrites_acknowledged_cex :
    getA (DatabaseService.updateCommandStatus
        [("c1", { status := "acknowledged", ackAt := true })]
        "c1" "sent" { sent_at := true }) "c1" =
      some { status := "sent", ackAt := true, sentAt := true } := by
  decide

/-- C7 amended: `updateCommandStatus` is an unconditional last-write-wins
assignment — for any row present in the table, any requested status
(including `sent` after `acknowledged`) simply overwrites the stored one,
so no monotonicity or terminality is enforced by the code. -/
theorem c7_update_status_unconditional (tbl : List (String × CmdRow))
    (id stv : String) (d : UpdData) (r : CmdRow) (h : getA tbl id = some r) :
    getA (DatabaseService.updateCommandStatus tbl id stv d) id =
      some (applyUpd r stv d) := by
  induction tbl with
  | nil => simp [getA] at h
  | cons kv rest ih =>
    obtain ⟨k, v⟩ := kv
    simp only [DatabaseService.updateCommandStatus, List.map_cons] at ih ⊢
    by_cases hk : k = id
    · subst hk
      rw [if_pos rfl]
      simp [getA] at h
      subst h
      simp [getA]
    · rw [if_neg (by simpa using hk)]
      simp only [getA, if_neg hk] at h ⊢
      exact ih h

/-- C7 witness: overwriting a pending row to `sent`. -/
theorem c7_update_status_unconditional_witness :
    getA (DatabaseService.updateCommandStatus
        [("c2", { status := "pending" })] "c2" "sent" { sent_at := true }) "c2" =
      some (applyUpd { status := "pending" } "sent" { sent_at := true }) :=
  c7_update_status_unconditional _ "c2" "sent" _ _ (by decide)

/-! ## Claim C9 -/

/-- C9: `ProtocolParser.parse` is total and never takes its failure
branch: it always returns a success object, and whenever all four specific
sub-codecs fail (reject, need-more or throw) the generic sub-codec
produces the `unknown` event with hex and printable-ASCII views, consuming
the entire buffer — so the caller's "parse failed, wait for more data"
branch is unreachable. -/
theorem c9_parse_total_generic_fallback (buffer : List Nat) :
    (ProtocolParser.parse buffer).success = true ∧
    (allSpecificFail buffer →
      ProtocolParser.parse buffer =
        ⟨true, some .generic,
          some (.unknown (hexOfBytes buffer) (asciiPrintable buffer) buffer.length),
          buffer.length⟩) := by
  constructor
  · unfold ProtocolParser.parse
    cases GPS303Parser.parse buffer <;> cases GT06Parser.parse buffer <;>
      cases TK103Parser.parse buffer <;> cases H02Parser.parse buffer <;>
      simp [tryNext, GenericParser.parse]
  · intro h
    obtain ⟨h1, h2, h3, h4⟩ := h
    unfold ProtocolParser.parse
    rw [tryNext_notOk _ _ _ h1, tryNext_notOk _ _ _ h2,
      tryNext_notOk _ _ _ h3, tryNext_notOk _ _ _ h4]
    rfl

/-- C9 witness: on the single byte `0x00` every specific sub-codec fails
and the generic event consumes the whole buffer. -/
theorem c9_parse_total_generic_fallback_witness :
    ProtocolParser.parse [0] =
      ⟨true, some .generic,
        some (.unknown (hexOfBytes [0]) (asciiPrintable [0]) 1), 1⟩ :=
  (c9_parse_total_generic_fallback [0]).2 (by decide)

/-! ## Claim C10 -/

/-- C10: `GT06Parser.parseIMEI` renders each of the 8 IMEI-field bytes as
exactly two lowercase hexadecimal digits with leading zeros preserved, so
the decoded IMEI is the 16-character hex rendering of the field (not a
15-digit IMEI string), and `parseLogin` authenticates GT06 devices under
that 16-character key. -/
theorem c10_imei_hex_rendering (bs : List Nat) (h8 : bs.length = 8)
    (hb : ∀ b ∈ bs, b < 256) :
    GT06Parser.parseIMEI bs = specHexRender bs ∧
    (GT06Parser.parseIMEI bs).length = 16 ∧
    (∀ d : List Nat, 10 ≤ d.length →
      GT06Parser.parseLogin d =
        .ok (.login (GT06Parser.parseIMEI (d.take 8)) (readU16 d 8))) := by
  have heq : GT06Parser.parseIMEI bs = specHexRender bs := by
    unfold GT06Parser.parseIMEI
    simpa using parseIMEI_foldl bs [] hb
  refine ⟨heq, ?_, ?_⟩
  · rw [heq, specHexRender_length, h8]
  · intro d hd
    simp [GT06Parser.parseLogin, Nat.not_lt.mpr hd]

/-- C10 witness: the 8-byte field `03 59 71 00 45 49 00 84` decodes to the
16-character key `"0359710045490084"`. -/
theorem c10_imei_hex_rendering_witness :
    GT06Parser.parseIMEI [0x03, 0x59, 0x71, 0x00, 0x45, 0x49, 0x00, 0x84] =
      strL "0359710045490084" ∧
    (GT06Parser.parseIMEI [0x03, 0x59, 0x71, 0x00, 0x45, 0x49, 0x00, 0x84]).length = 16 :=
  ⟨by decide,
   (c10_imei_hex_rendering _ (by decide) (by decide)).2.1⟩

/-! ## Claim C3 -/

/-- C3 counterexample: the claim says a second successful authentication
for an already-registered IMEI closes the older session's socket.  In the
code `authenticateDevice` only overwrites the `connectedDevices` entry and
never touches the displaced connection: after sessions 1 and 2 both
authenticate as `"X"`, the registry maps `"X"` to 2 but no socket has been
destroyed. -/
theorem c3_no_displacement_close_cex :
    (TCPServer.authenticateDevice (fun _ => true)
        (TCPServer.authenticateDevice (fun _ => true) {} { cid := 1 } (strL "X")).1
        { cid := 2 } (strL "X")).1.destroyed = [] ∧
    getA (TCPServer.authenticateDevice (fun _ => true)
        (TCPServer.authenticateDevice (fun _ => true) {} { cid := 1 } (strL "X")).1
        { cid := 2 } (strL "X")).1.registry (strL "X") = some 2 := by
  decide

/-- C3 amended: a second successful authentication for the same IMEI
overwrites the registry entry to the new session and keeps the device
online, but the older session's socket is not closed; and when the older
(still-open) session later disconnects, `handleDisconnection` deletes the
IMEI's registry entry — which now points at the newer session — and marks
the device offline. -/
theorem c3_registry_overwrite_no_close (db : List Char → Bool) (st : SrvSt)
    (a b : Conn) (x : List Char) (hdb : db x = true) :
    getA (TCPServer.authenticateDevice db
        (TCPServer.authenticateDevice db st a x).1 b x).1.registry x = some b.cid ∧
    (TCPServer.authenticateDevice db
        (TCPServer.authenticateDevice db st a x).1 b x).1.destroyed = st.destroyed ∧
    getA (TCPServer.authenticateDevice db
        (TCPServer.authenticateDevice db st a x).1 b x).1.online x = some true ∧
    (TCPServer.authenticateDevice db st a x).2.authenticated = true ∧
    (TCPServer.authenticateDevice db st a x).2.imei = some x ∧
    getA (TCPServer.handleDisconnection
        (TCPServer.authenticateDevice db
          (TCPServer.authenticateDevice db st a x).1 b x).1
        (TCPServer.authenticateDevice db st a x).2).registry x = none ∧
    getA (TCPServer.handleDisconnection
        (TCPServer.authenticateDevice db
          (TCPServer.authenticateDevice db st a x).1 b x).1
        (TCPServer.authenticateDevice db st a x).2).online x = some false := by
  simp [TCPServer.authenticateDevice, TCPServer.handleDisconnection, hdb,
    getA_setA_self, getA_delA_self]

/-- C3 witness: the amended behaviour at concrete sessions 5 and 6 and
IMEI `"Y"`. -/
theorem c3_registry_overwrite_no_close_witness :
    getA (TCPServer.authenticateDevice (fun _ => true)
        (TCPServer.authenticateDevice (fun _ => true) {} { cid := 5 } (strL "Y")).1
        { cid := 6 } (strL "Y")).1.registry (strL "Y") = some 6 ∧
    (TCPServer.authenticateDevice (fun _ => true)
        (TCPServer.authenticateDevice (fun _ => true) {} { cid := 5 } (strL "Y")).1
        { cid := 6 } (strL "Y")).1.destroyed = (({} : SrvSt)).destroyed ∧
    getA (TCPServer.authenticateDevice (fun _ => true)
        (TCPServer.authenticateDevice (fun _ => true) {} { cid := 5 } (strL "Y")).1
        { cid := 6 } (strL "Y")).1.online (strL "Y") = some true ∧
    (TCPServer.authenticateDevice (fun _ => true) {} { cid := 5 } (strL "Y")).2.authenticated = true ∧
    (TCPServer.authenticateDevice (fun _ => true) {} { cid := 5 } (strL "Y")).2.imei = some (strL "Y") ∧
    getA (TCPServer.handleDisconnection
        (TCPServer.authenticateDevice (fun _ => true)
          (TCPServer.authenticateDevice (fun _ => true) {} { cid := 5 } (strL "Y")).1
          { cid := 6 } (strL "Y")).1
        (TCPServer.authenticateDevice (fun _ => true) {} { cid := 5 } (strL "Y")).2).registry
      (strL "Y") = none ∧
    getA (TCPServer.handleDisconnection
        (TCPServer.authenticateDevice (fun _ => true)
          (TCPServer.authenticateDevice (fun _ => true) {} { cid := 5 } (strL "Y")).1
          { cid := 6 } (strL "Y")).1
        (TCPServer.authenticateDevice (fun _ => true) {} { cid := 5 } (strL "Y")).2).online
      (strL "Y") = some false :=
  c3_registry_overwrite_no_close (fun _ => true) {} { cid := 5 } { cid := 6 } (strL "Y") rfl

/-! ## Claim C2 -/

theorem handleDeviceData_protoUsed (db : List Char → Bool) (st : SrvSt)
    (c : Conn) (data : List Nat)
    (h : (ProtocolParser.parse (c.buffer ++ data)).success = true) :
    (TCPServer.handleDeviceData db st c data).protoUsed =
      (ProtocolParser.parse (c.buffer ++ data)).protocol := by
  unfold TCPServer.handleDeviceData
  simp only [h, Bool.not_true, Bool.false_eq_true, if_false]
  repeat' split
  all_goals rfl

theorem handleDeviceData_buffer (db : List Char → Bool) (st : SrvSt)
    (c : Conn) (data : List Nat)
    (h : (ProtocolParser.parse (c.buffer ++ data)).success = true) :
    (TCPServer.handleDeviceData db st c data).conn.buffer =
      (c.buffer ++ data).drop (ProtocolParser.parse (c.buffer ++ data)).bytesProcessed := by
  unfold TCPServer.handleDeviceData TCPServer.authenticateDevice
  simp only [h, Bool.not_true, Bool.false_eq_true, if_false]
  repeat' split
  all_goals rfl

/-- C2 counterexample: one session whose first frame is decoded by the
GT06 sub-codec and whose second frame is decoded by the GPS303 sub-codec —
the server stores no fingerprint, so the session's second decode does not
use the first frame's codec. -/
theorem c2_fingerprint_not_fixed_cex :
    (TCPServer.handleDeviceData (fun _ => false) {} { cid := 1 } frameGt06Hb).protoUsed =
      some .gt06 ∧
    (TCPServer.handleDeviceData (fun _ => false)
        (TCPServer.handleDeviceData (fun _ => false) {} { cid := 1 } frameGt06Hb).st
        (TCPServer.handleDeviceData (fun _ => false) {} { cid := 1 } frameGt06Hb).conn
        frameGpsLogin).protoUsed = some .gps303 ∧
    Protocol.gt06 ≠ Protocol.gps303 := by
  decide

/-- C2 amended: no per-session fingerprint exists.  Every frame is decoded
by retrying the sub-codecs in the fixed order (`gps303`, `gt06`, `tk103`,
`h02`, then `generic`) on the current buffer alone, so consecutive frames
of one session may be decoded by different sub-codecs (here GT06 then
GPS303); and every outbound ack or command is built with the default
`gps303` sub-codec — command building even throws, since `GPS303Parser`
has no command builder. -/
theorem c2_per_frame_codec_selection (db : List Char → Bool) (st : SrvSt)
    (c : Conn) (hbuf : c.buffer = []) :
    (TCPServer.handleDeviceData db st c frameGt06Hb).protoUsed = some .gt06 ∧
    (TCPServer.handleDeviceData db
        (TCPServer.handleDeviceData db st c frameGt06Hb).st
        (TCPServer.handleDeviceData db st c frameGt06Hb).conn frameGpsLogin).protoUsed =
      some .gps303 ∧
    ProtocolParser.buildAuthResponse true none = some (asciiBytes "LOAD") ∧
    ProtocolParser.buildHeartbeatResponse none = some (asciiBytes "ON") ∧
    ProtocolParser.buildCommand "locate" none = .error "TypeError" := by
  have hp1 : ProtocolParser.parse frameGt06Hb =
      ⟨true, some .gt06, some (.heartbeat []), 6⟩ := by decide
  have h1 : (ProtocolParser.parse (c.buffer ++ frameGt06Hb)).success = true := by
    rw [hbuf, List.nil_append, hp1]
  have e1 : (TCPServer.handleDeviceData db st c frameGt06Hb).protoUsed = some .gt06 := by
    rw [handleDeviceData_protoUsed db st c _ h1, hbuf, List.nil_append, hp1]
  have b1 : (TCPServer.handleDeviceData db st c frameGt06Hb).conn.buffer = [] := by
    rw [handleDeviceData_buffer db st c _ h1, hbuf, List.nil_append, hp1]
    decide
  have hp2 : (ProtocolParser.parse frameGpsLogin).protocol = some .gps303 ∧
      (ProtocolParser.parse frameGpsLogin).success = true := by decide
  have h2 : (ProtocolParser.parse
      ((TCPServer.handleDeviceData db st c frameGt06Hb).conn.buffer ++ frameGpsLogin)).success =
      true := by
    rw [b1, List.nil_append]
    exact hp2.2
  have e2 : (TCPServer.handleDeviceData db
      (TCPServer.handleDeviceData db st c frameGt06Hb).st
      (TCPServer.handleDeviceData db st c frameGt06Hb).conn frameGpsLogin).protoUsed =
      some .gps303 := by
    rw [handleDeviceData_protoUsed _ _ _ _ h2, b1, List.nil_append]
    exact hp2.1
  exact ⟨e1, e2, by decide, by decide, rfl⟩

/-- C2 witness: the amended behaviour on a fresh session. -/
theorem c2_per_frame_codec_selection_witness :
    (TCPServer.handleDeviceData (fun _ => true) {} { cid := 3 } frameGt06Hb).protoUsed =
      some .gt06 ∧
    (TCPServer.handleDeviceData (fun _ => true)
        (TCPServer.handleDeviceData (fun _ => true) {} { cid := 3 } frameGt06Hb).st
        (TCPServer.handleDeviceData (fun _ => true) {} { cid := 3 } frameGt06Hb).conn
        frameGpsLogin).protoUsed = some .gps303 ∧
    ProtocolParser.buildAuthResponse true none = some (asciiBytes "LOAD") ∧
    ProtocolParser.buildHeartbeatResponse none = some (asciiBytes "ON") ∧
    ProtocolParser.buildCommand "locate" none = .error "TypeError" :=
  c2_per_frame_codec_selection (fun _ => true) {} { cid := 3 } rfl

/-! ## Claim C5 -/

/-- C5 counterexample: on a truncated GT06 frame (correct start bytes,
fewer than `len+5` bytes buffered) the GT06 sub-codec reports the
need-more condition as a plain failure (`"Incomplete packet"`), the
generic sub-codec is then used anyway, the whole buffer is consumed, and
the session buffer is left empty rather than intact. -/
theorem c5_incomplete_frame_consumed_cex :
    GT06Parser.parse frameGt06Part = .fail "Incomplete packet" ∧
    (ProtocolParser.parse frameGt06Part).protocol = some .generic ∧
    (ProtocolParser.parse frameGt06Part).bytesProcessed = 6 ∧
    (TCPServer.handleDeviceData (fun _ => false) {} { cid := 1 }
      frameGt06Part).conn.buffer = [] := by
  decide

/-- C5 amended: a GT06 "need more bytes" condition is indistinguishable
from a rejection — for every buffer with GT06 start bytes and fewer than
`len+5` bytes, the GT06 sub-codec fails with `"Incomplete packet"`, all
other specific sub-codecs also fail, and the top-level parse falls through
to the generic sub-codec, which consumes the entire buffer as an `unknown`
event instead of leaving it buffered. -/
theorem c5_incomplete_gt06_goes_generic (b : List Nat)
    (h5 : 5 ≤ b.length) (h0 : b.getD 0 0 = 0x78) (h1 : b.getD 1 0 = 0x78)
    (hlen : b.length < b.getD 2 0 + 5) :
    GT06Parser.parse b = .fail "Incomplete packet" ∧
    ProtocolParser.parse b =
      ⟨true, some .generic,
        some (.unknown (hexOfBytes b) (asciiPrintable b) b.length), b.length⟩ := by
  obtain ⟨x0, t, rfl⟩ : ∃ x0 t, b = x0 :: t := by
    cases b with
    | nil => simp at h5
    | cons a l => exact ⟨a, l, rfl⟩
  have hx0 : x0 = 0x78 := by simpa [List.getD] using h0
  subst hx0
  have hgt : GT06Parser.parse (0x78 :: t) = .fail "Incomplete packet" := by
    simp only [GT06Parser.parse]
    rw [if_neg (by omega), if_neg (by simpa [List.getD] using h1), if_pos hlen]
  have hchar : Char.ofNat ((0x78 : Nat) % 128) = 'x' := by decide
  have hxh : ('x' : Char) ≠ '#' := by decide
  have hxi : ('x' : Char) ≠ 'i' := by decide
  have hs1 : startsWithS (asciiOf (0x78 :: t)) (strL "##") = false := by
    have : strL "##" = '#' :: '#' :: [] := rfl
    simp [asciiOf, this, startsWithS, hchar, hxh]
  have hs2 : startsWithS (asciiOf (0x78 :: t)) (strL "imei:") = false := by
    have : strL "imei:" = 'i' :: 'm' :: 'e' :: 'i' :: ':' :: [] := rfl
    simp [asciiOf, this, startsWithS, hchar, hxi]
  have hgps : GPS303Parser.parse (0x78 :: t) = .fail "" := by
    simp only [GPS303Parser.parse]
    rw [if_neg (by simp [hs1]), if_neg (by simp [hs2])]
  have htk : TK103Parser.parse (0x78 :: t) = .fail "Not TK103 protocol" := by
    simp only [TK103Parser.parse]
    rw [if_neg (by simp [hs1])]
  refine ⟨hgt, ?_⟩
  unfold ProtocolParser.parse
  rw [tryNext_notOk _ _ _ (by rw [hgps]; rfl),
    tryNext_notOk _ _ _ (by rw [hgt]; rfl),
    tryNext_notOk _ _ _ (by rw [htk]; rfl),
    tryNext_notOk _ _ _ (by simp [H02Parser.parse, SubRes.notOk])]
  rfl

/-- C5 witness: the amended behaviour on a 5-byte truncated frame with
length byte `0x20`. -/
theorem c5_incomplete_gt06_goes_generic_witness :
    ProtocolParser.parse [0x78, 0x78, 0x20, 0x01, 0x02] =
      ⟨true, some .generic,
        some (.unknown (hexOfBytes [0x78, 0x78, 0x20, 0x01, 0x02])
          (asciiPrintable [0x78, 0x78, 0x20, 0x01, 0x02]) 5), 5⟩ :=
  (c5_incomplete_gt06_goes_generic [0x78, 0x78, 0x20, 0x01, 0x02]
    (by decide) (by decide) (by decide) (by decide)).2

/-! ## Claim C8 -/

theorem digit_not_space (c : Char) (h : isDigitCh c = true) : isJsSpace c = false := by
  have h48 : 48 ≤ c.toNat ∧ c.toNat ≤ 57 := by simpa [isDigitCh] using h
  by_cases e1 : c = ' '
  · exact absurd h48.1 (by subst e1; decide)
  by_cases e2 : c = '\t'
  · exact absurd h48.1 (by subst e2; decide)
  by_cases e3 : c = '\n'
  · exact absurd h48.1 (by subst e3; decide)
  by_cases e4 : c = '\r'
  · exact absurd h48.1 (by subst e4; decide)
  simp [isJsSpace, e1, e2, e3, e4]
  omega

theorem takeDigits_all (s : List Char) (h : ∀ c ∈ s, isDigitCh c = true) :
    takeDigits s = (s, []) := by
  induction s with
  | nil => rfl
  | cons c r ih =>
    have hc := h c (List.mem_cons_self c r)
    have hr := ih (fun x hx => h x (List.mem_cons_of_mem c hx))
    simp [takeDigits, hc, hr]

theorem jsParseInt_digits (s : List Char) (hne : s ≠ [])
    (h : ∀ c ∈ s, isDigitCh c = true) :
    jsParseInt s = some ((digitsVal s : Int)) := by
  obtain ⟨c0, t, rfl⟩ : ∃ c0 t, s = c0 :: t := by
    cases s with
    | nil => exact absurd rfl hne
    | cons a l => exact ⟨a, l, rfl⟩
  have hc0 := h c0 (List.mem_cons_self c0 t)
  have hb : 48 ≤ c0.toNat ∧ c0.toNat ≤ 57 := by simpa [isDigitCh] using hc0
  have hdrop : (c0 :: t).dropWhile isJsSpace = c0 :: t := by
    simp [List.dropWhile, digit_not_space c0 hc0]
  have hm : c0 ≠ '-' := by intro e; rw [e] at hb; exact absurd hb.1 (by decide)
  have hp : c0 ≠ '+' := by intro e; rw [e] at hb; exact absurd hb.1 (by decide)
  simp only [jsParseInt, hdrop]
  simp only [jsSign, List.head?_cons, List.tail_cons, Option.some.injEq, hm, hp,
    if_false, if_neg]
  rw [takeDigits_all (c0 :: t) h]
  simp

theorem parseCoordinate_spec (s : List Char) (x : ℚ) (h : jsParseFloat s = some x)
    (hx : 0 ≤ x) : GPS303Parser.parseCoordinate s = specCoordinate x := by
  unfold GPS303Parser.parseCoordinate specCoordinate
  rw [h]
  have ht : ratTrunc (x / 100) = ⌊x / 100⌋ := by
    unfold ratTrunc
    rw [if_pos (div_nonneg hx (by norm_num))]
  simp only [jsRem, ht]

/-- C8: on every GPS303 position frame (`imei:` prefix, at least 12
comma-separated fields) whose coordinate and speed fields parse to
non-negative numbers, the decoded latitude/longitude are
`int(x/100) + (x mod 100)/60` negated exactly when the hemisphere field is
`S` (resp. `W`), the speed is taken from field 11, and the timestamp comes
from field 2 — decoded componentwise when it is a 12-digit `YYMMDDhhmmss`
field, with the receipt time (`new Date()`) as fallback when shorter. -/
theorem c8_gps303_position_decoding
    (buffer : List Nat) (fs : List (List Char)) (la lo sp : ℚ)
    (hsw : startsWithS (asciiOf buffer) (strL "imei:") = true)
    (hsplit : splitOnChar ',' (trimChars (asciiOf buffer)) = fs)
    (hlen : 12 ≤ fs.length)
    (hla : jsParseFloat (fs.getD 7 []) = some la) (hla0 : 0 ≤ la)
    (hlo : jsParseFloat (fs.getD 9 []) = some lo) (hlo0 : 0 ≤ lo)
    (hsp : jsParseFloat (fs.getD 11 []) = some sp) (hspne : fs.getD 11 [] ≠ []) :
    GPS303Parser.parse buffer =
      .ok (.gpsLocation ((splitOnChar ':' (fs.getD 0 [])).getD 1 [])
        (if fs.getD 8 [] = strL "S" then -(specCoordinate la) else specCoordinate la)
        (if fs.getD 10 [] = strL "W" then -(specCoordinate lo) else specCoordinate lo)
        (some sp) (decide (fs.getD 6 [] = strL "A"))
        (GPS303Parser.parseDateTime (fs.getD 2 []) []) (asciiOf buffer))
        buffer.length ∧
    (∀ ds : List Char, ds.length < 12 → GPS303Parser.parseDateTime ds [] = .now) ∧
    (∀ ds : List Char, ds.length = 12 → (∀ c ∈ ds, isDigitCh c = true) →
      GPS303Parser.parseDateTime ds [] =
        .ctor (some (2000 + (digitsVal (subChars ds 0 2) : Int)))
          (some ((digitsVal (subChars ds 2 4) : Int) - 1))
          (some ((digitsVal (subChars ds 4 6) : Int)))
          (some ((digitsVal (subChars ds 6 8) : Int)))
          (some ((digitsVal (subChars ds 8 10) : Int)))
          (some ((digitsVal (subChars ds 10 12) : Int)))) := by
  refine ⟨?_, ?_, ?_⟩
  · have hss : startsWithS (asciiOf buffer) (strL "##") = false := by
      cases hbuf : asciiOf buffer with
      | nil =>
        rw [hbuf] at hsw
        rw [show strL "imei:" = 'i' :: 'm' :: 'e' :: 'i' :: ':' :: [] from rfl] at hsw
        simp [startsWithS] at hsw
      | cons c cs =>
        rw [hbuf] at hsw
        have hc : c = 'i' := by
          rw [show strL "imei:" = 'i' :: 'm' :: 'e' :: 'i' :: ':' :: [] from rfl] at hsw
          simp [startsWithS] at hsw
          exact hsw.1
        subst hc
        rw [show strL "##" = '#' :: '#' :: [] from rfl]
        simp [startsWithS]
    simp only [GPS303Parser.parse]
    rw [if_neg (by simp [hss]), if_pos (by simp [hsw]), hsplit, if_pos hlen,
      if_neg hspne, hsp, parseCoordinate_spec _ _ hla hla0,
      parseCoordinate_spec _ _ hlo hlo0]
  · intro ds hds
    have hnl : ¬ 12 ≤ ds.length := by omega
    simp [GPS303Parser.parseDateTime, trimChars, hnl]
  · intro ds hds hdig
    have key : ∀ a b : Nat, a < b → b ≤ 12 →
        jsParseInt (subChars ds a b) = some ((digitsVal (subChars ds a b) : Int)) := by
      intro a b hab hb12
      apply jsParseInt_digits
      · apply List.ne_nil_of_length_pos
        simp [subChars, hds]
        omega
      · intro c hc
        exact hdig c (List.drop_subset _ _ (List.take_subset _ _ hc))
    simp only [GPS303Parser.parseDateTime]
    rw [if_pos (show trimChars ([] : List Char) = [] from rfl), if_pos (by omega)]
    rw [key 0 2 (by omega) (by omega), key 2 4 (by omega) (by omega),
      key 4 6 (by omega) (by omega), key 6 8 (by omega) (by omega),
      key 8 10 (by omega) (by omega), key 10 12 (by omega) (by omega)]
    simp

/-- C8 witness: the S2 frame decodes to latitude `-22.5`, longitude
`-259/6 ≈ -43.1667`, speed `42.5`, timestamp 2025-01-01 12:00:00. -/
theorem c8_gps303_position_decoding_witness :
    GPS303Parser.parse frameS2 =
      .ok (.gpsLocation (strL "359710045490084") (-(45 / 2 : ℚ)) (-(259 / 6 : ℚ))
        (some (85 / 2 : ℚ)) true
        (.ctor (some 2025) (some 0) (some 1) (some 12) (some 0) (some 0))
        (asciiOf frameS2)) frameS2.length := by
  have d1 : digitsVal (strL "2230") = 2230 := by decide
  have d2 : digitsVal (strL "0000") = 0 := by decide
  have d3 : digitsVal (strL "04310") = 4310 := by decide
  have d4 : digitsVal (strL "42") = 42 := by decide
  have d5 : digitsVal (strL "5") = 5 := by decide
  have e1 : jsParseFloat (strL "2230.0000") = some 2230 := by
    have h : jsParseFloat (strL "2230.0000") =
        some ((digitsVal (strL "2230") : ℚ) + (digitsVal (strL "0000") : ℚ) / 10 ^ 4) := rfl
    rw [h, d1, d2]
    norm_num
  have e2 : jsParseFloat (strL "04310.0000") = some 4310 := by
    have h : jsParseFloat (strL "04310.0000") =
        some ((digitsVal (strL "04310") : ℚ) + (digitsVal (strL "0000") : ℚ) / 10 ^ 4) := rfl
    rw [h, d3, d2]
    norm_num
  have e3 : jsParseFloat (strL "42.5") = some (85 / 2) := by
    have h : jsParseFloat (strL "42.5") =
        some ((digitsVal (strL "42") : ℚ) + (digitsVal (strL "5") : ℚ) / 10 ^ 1) := rfl
    rw [h, d4, d5]
    norm_num
  have h := (c8_gps303_position_decoding frameS2
    [strL "imei:359710045490084", strL "tracker", strL "250101120000", strL "",
     strL "F", strL "120000.000", strL "A", strL "2230.0000", strL "S",
     strL "04310.0000", strL "W", strL "42.5"]
    2230 4310 (85 / 2)
    (by decide) (by decide) (by decide) e1 (by norm_num) e2 (by norm_num) e3
    (by decide)).1
  rw [h]
  rw [if_pos (show ([strL "imei:359710045490084", strL "tracker", strL "250101120000",
      strL "", strL "F", strL "120000.000", strL "A", strL "2230.0000", strL "S",
      strL "04310.0000", strL "W", strL "42.5"].getD 8 []) = strL "S" from rfl)]
  rw [if_pos (show ([strL "imei:359710045490084", strL "tracker", strL "250101120000",
      strL "", strL "F", strL "120000.000", strL "A", strL "2230.0000", strL "S",
      strL "04310.0000", strL "W", strL "42.5"].getD 10 []) = strL "W" from rfl)]
  rw [show specCoordinate 2230 = 45 / 2 from by norm_num [specCoordinate],
    show specCoordinate 4310 = 259 / 6 from by norm_num [specCoordinate]]
  rfl
